import Mathlib

/-!
Verification development for the minipilot repository.

The embedding covers the two source files:
* `src/core/RedisRetrievalChain.py` — the per-question streaming hand-off
  bridge (`streamer`) and the conversation orchestrator (`__ask_question`);
* `src/plugins/csv/worker.py` — the CSV ingestion worker (`csv_loader_task`).

External collaborators (the Redis history list, the semantic cache, the LLM
client, the text splitter) are modelled as explicit inputs or effect records,
mirroring exactly the calls the source code issues against them.
-/

namespace Minipilot

/-! ## Streaming hand-off bridge: `RedisRetrievalChain.streamer`

The consumer loop repeatedly pulls from `self.queue` with a timeout.  Each
pull either delivers a value within the timeout or raises `queue.Empty`.
A delivered value is the terminal sentinel `STOP_ITEM`, Python `None`, or a
text fragment.  `STOP_ITEM` lives in `StreamingStdOutCallbackHandlerYield`
(outside the given sources); it is modelled as a distinguished constructor,
and text fragments are the non-sentinel values. -/

/-- A value that can sit in the per-question hand-off queue. -/
inductive QItem where
  | stop
  | nullItem
  | frag (s : String)
deriving DecidableEq, Repr

/-- The outcome of one `queue.get(block=True, timeout=...)` call:
either a value arrives within the timeout, or the pull times out
(`queue.Empty` is raised). -/
inductive PullEvent where
  | timeout
  | item (x : QItem)
deriving DecidableEq, Repr

/-- The fixed message yielded on a timeout
(`RedisRetrievalChain.streamer`, line 210). -/
def overloadMessage : String :=
  "The server is overloaded, retry later. Thanks for your patience"

/-- How a `streamer` run ends, with the fragments it yielded and the answer
string passed to `self.log`.  `incomplete` marks a trace that ran out of
pull events before the loop terminated (no verdict is drawn from it). -/
inductive StreamResult where
  | finished (yields : List String) (loggedAnswer : String)
  | overloaded (yields : List String) (loggedAnswer : String)
  | incomplete (yields : List String) (partialAnswer : String)
deriving DecidableEq, Repr

/-- The `while True` loop of `RedisRetrievalChain.streamer` (lines 204-218),
run against a trace of pull outcomes.  `ans` is the `answer` accumulator and
`ys` the fragments yielded so far (newest first).  On `queue.Empty` the
accumulator is overwritten with `overloadMessage`, which is logged, yielded
once, and the loop breaks.  On `STOP_ITEM` or `None` the accumulated answer
is logged and the loop breaks without yielding.  Any other value is appended
to the accumulator and yielded. -/
def streamerAux : List PullEvent → String → List String → StreamResult
  | [], ans, ys => .incomplete ys.reverse ans
  | PullEvent.timeout :: _, _, ys =>
      .overloaded (ys.reverse ++ [overloadMessage]) overloadMessage
  | PullEvent.item QItem.stop :: _, ans, ys => .finished ys.reverse ans
  | PullEvent.item QItem.nullItem :: _, ans, ys => .finished ys.reverse ans
  | PullEvent.item (QItem.frag s) :: rest, ans, ys =>
      streamerAux rest (ans ++ s) (s :: ys)

/-- `RedisRetrievalChain.streamer`: starts with an empty accumulator and no
yields, then runs the pull loop. -/
def streamer (evs : List PullEvent) : StreamResult := streamerAux evs "" []

/-- The pull trace in which each listed fragment arrives within the timeout. -/
def fragEvents (frags : List String) : List PullEvent :=
  frags.map (fun s => PullEvent.item (QItem.frag s))

/-- Consuming a block of in-time fragments appends them to the accumulator
and to the yield list, in order. -/
theorem streamerAux_fragEvents (frags : List String) (rest : List PullEvent)
    (ans : String) (ys : List String) :
    streamerAux (fragEvents frags ++ rest) ans ys
      = streamerAux rest (frags.foldl (fun a s => a ++ s) ans)
          (frags.reverse ++ ys) := by
  induction frags generalizing ans ys with
  | nil => simp [fragEvents]
  | cons f fs ih =>
      simp only [fragEvents, List.map_cons, List.cons_append, streamerAux,
        List.foldl_cons, List.reverse_cons, List.append_eq]
      rw [show fragEvents fs = fs.map (fun s => PullEvent.item (QItem.frag s)) from rfl] at ih
      rw [ih]
      simp [List.append_assoc]

/-- C1: if the producer enqueues N non-sentinel text fragments followed by the
terminal sentinel, each arriving within the timeout, then `streamer` yields
exactly those N fragments in enqueue order and then stops, logging the
accumulated (concatenated) answer. -/
theorem streamer_delivers_fragments_in_order (frags : List String) :
    streamer (fragEvents frags ++ [PullEvent.item QItem.stop])
      = StreamResult.finished frags (frags.foldl (fun a s => a ++ s) "") := by
  unfold streamer
  rw [streamerAux_fragEvents]
  simp [streamerAux]

/-- C2: if a pull times out — after any number of already-yielded fragments —
`streamer` yields exactly one more value, the fixed overload message, logs it
as the outcome, and terminates without re-polling (any later events in the
trace are ignored). -/
theorem streamer_timeout_yields_overload_once (frags : List String)
    (rest : List PullEvent) :
    streamer (fragEvents frags ++ PullEvent.timeout :: rest)
      = StreamResult.overloaded (frags ++ [overloadMessage]) overloadMessage := by
  unfold streamer
  rw [streamerAux_fragEvents]
  simp [streamerAux]

/-- C9: if the very first value pulled (within the timeout) is already the
terminal sentinel, `streamer` yields nothing and finalizes normally with an
empty accumulated answer — in particular it does not yield the overload
message. -/
theorem streamer_empty_stream_finishes_empty (rest : List PullEvent) :
    streamer (PullEvent.item QItem.stop :: rest)
      = StreamResult.finished [] "" := rfl

/-- C10: a dequeued `None` behaves exactly like the terminal sentinel: it is
never yielded, the streamer finalizes logging the answer accumulated so far,
and fragments enqueued after it are never delivered. -/
theorem streamer_none_acts_as_sentinel (frags : List String)
    (rest : List PullEvent) :
    streamer (fragEvents frags ++ PullEvent.item QItem.nullItem :: rest)
      = StreamResult.finished frags (frags.foldl (fun a s => a ++ s) "")
    ∧ streamer (fragEvents frags ++ PullEvent.item QItem.nullItem :: rest)
      = streamer (fragEvents frags ++ PullEvent.item QItem.stop :: rest) := by
  constructor
  · unfold streamer
    rw [streamerAux_fragEvents]
    simp [streamerAux]
  · unfold streamer
    rw [streamerAux_fragEvents, streamerAux_fragEvents]
    simp [streamerAux]

/-! ## Conversation orchestrator: `RedisRetrievalChain.__ask_question`

The Redis history list is modelled head-newest, matching
`RedisChatMessageHistory`: `add_message` is an LPUSH (prepend) and
`rpop(key, n)` removes `n` entries from the tail, i.e. the oldest ones.
The semantic cache, the LLM chain, and the retriever are external services;
their answers to the calls `__ask_question` issues (`llmcache.check`,
`chatbot.invoke`) are inputs of the model, and the calls it issues back
(`llmcache.store`, queue pushes, `notify`) are recorded as effects. -/

/-- One reference record as built in `__ask_question` lines 162-169. -/
structure RefVal where
  title : String
  genre : String
  country : String
  revenue : String
  score : String
  date_x : String
deriving DecidableEq, Repr

/-- A retrieved source document's metadata, as read by `__ask_question`. -/
structure Doc where
  id : String
  names : String
  genre : String
  country : String
  revenue : String
  score : String
  date_x : String
deriving DecidableEq, Repr

/-- The reference key: `doc.metadata['id'].split('idx:')[-1]`. -/
def docRefKey (d : Doc) : String := (d.id.splitOn "idx:").getLastD ""

/-- The reference value: title is `names.strip().replace('\n', '')`. -/
def docRefVal (d : Doc) : RefVal :=
  ⟨(d.names.trim).replace "\n" "", d.genre, d.country, d.revenue, d.score,
    d.date_x⟩

/-- Python dict assignment `m[k] = v`: replace in place if the key exists,
otherwise append at the end. -/
def dictInsert (k : String) (v : RefVal) (m : List (String × RefVal)) :
    List (String × RefVal) :=
  if m.any (fun p => p.1 = k) then
    m.map (fun p => if p.1 = k then (k, v) else p)
  else m ++ [(k, v)]

/-- The `references` dict built from `result['source_documents']`
(lines 160-169). -/
def buildReferences (docs : List Doc) : List (String × RefVal) :=
  docs.foldl (fun m d => dictInsert (docRefKey d) (docRefVal d) m) []

/-- One entry of the Redis history list: a LangChain `BaseMessage` with
`content`, `type`, and `additional_kwargs`. -/
structure Msg where
  content : String
  type : String
  additional_kwargs : List (String × RefVal)
deriving DecidableEq, Repr

/-- One hit returned by `llmcache.check(prompt=q,
return_fields=["response", "metadata"])`; the `metadata` field may be
absent (line 103 guards `if 'metadata' in cached[0]`). -/
structure CacheHit where
  id : String
  response : String
  metadata : Option (List (String × RefVal))
deriving DecidableEq, Repr

/-- A cache entry's mutable popularity state, keyed by entry id. -/
structure CacheEntry where
  id : String
  popularity : Nat
deriving DecidableEq, Repr

/-- Modelled from the spec: `Core.rate_cache_item` lives in
`src/core/Core.py`, which is not part of the given sources; per the spec
(§6 "increase-popularity(id)", §4.2 "its popularity score is incremented")
it increments by one the popularity of the cache entry with the given id. -/
def rate_cache_item (i : String) (cache : List CacheEntry) :
    List CacheEntry :=
  cache.map (fun e =>
    if e.id = i then { e with popularity := e.popularity + 1 } else e)

/-- The record returned by `chatbot.invoke` on success.  `tokens` is the
stream of incremental fragments the streaming LLM pushes through the
callback while generating `answer` (the callback class is outside the given
sources; per spec §4.1 the producer appends each fragment and then the
sentinel exactly once). -/
structure LLMResult where
  question : String
  answer : String
  generated_question : String
  source_documents : List Doc
  tokens : List String
deriving DecidableEq, Repr

/-- The fixed message pushed to the consumer on an `OpenAIError`
(line 193). -/
def tooLongMessage : String :=
  "This conversation is too long, started a new one"

/-- Everything one `__ask_question` run does to the outside world. -/
structure AskEffects where
  /-- Values pushed onto the hand-off queue, in order. -/
  queuePushes : List QItem
  /-- Whether a streaming LLM call was issued (the code past line 109 ran). -/
  llmCalled : Bool
  /-- The argument of `callback_fn.notify`, if called. -/
  notified : Option String
  /-- The final Redis history list, head = newest. -/
  history : List Msg
  /-- Cache popularity state after the run. -/
  cache : List CacheEntry
  /-- `llmcache.store(prompt, response, metadata)` calls issued. -/
  cacheStores : List (String × String × List (String × RefVal))
  /-- Whether `logging.warning` was called. -/
  warningLogged : Bool
deriving DecidableEq, Repr

/-- The full (cache-miss or caching-disabled) path of `__ask_question`
(lines 109-197).  The history is trimmed to `historyLength` newest entries
before the LLM call (`rpop` of the oldest excess, lines 119-122).  On
success the turn's two messages are prepended (lines 171-172) and
`llmcache.store` is called iff references were found and caching is enabled
(lines 187-190).  On `OpenAIError` the consumer is notified with the fixed
message (the `notify` of the callback class is outside the given sources;
per spec §4.1 failures are funnelled into the channel as a visible
termination, modelled as the message followed by the sentinel), a warning
is logged, and the history is cleared (lines 192-196). -/
def askFull (historyLength : Nat) (cacheEnabled : Bool) (q : String)
    (llm : Option LLMResult) (history : List Msg)
    (cache : List CacheEntry) : AskEffects :=
  let trimmed :=
    if history.length > historyLength then history.take historyLength
    else history
  match llm with
  | none =>
      { queuePushes := [QItem.frag tooLongMessage, QItem.stop]
        llmCalled := true
        notified := some tooLongMessage
        history := []
        cache := cache
        cacheStores := []
        warningLogged := true }
  | some r =>
      let refs := buildReferences r.source_documents
      { queuePushes := r.tokens.map QItem.frag ++ [QItem.stop]
        llmCalled := true
        notified := none
        history := Msg.mk r.answer "ai" refs
            :: Msg.mk r.question "human" [] :: trimmed
        cache := cache
        cacheStores :=
          if refs.length ≠ 0 ∧ cacheEnabled = true then
            [(r.generated_question, r.answer, refs)]
          else []
        warningLogged := false }

/-- `RedisRetrievalChain.__ask_question` (lines 84-197).  Arguments `cached`
and `llm` are the external services' answers: `cached` is what
`llmcache.check(prompt=q)` returns (consulted only when caching is enabled),
and `llm` is the outcome of `chatbot.invoke` (`none` = `openai.OpenAIError`
raised).  On a cache hit (caching enabled and at least one hit, lines
92-107) the top hit's response and the sentinel are pushed, its popularity
is increased, and the turn is prepended to history; no LLM call is made. -/
def ask_question (historyLength : Nat) (cacheEnabled : Bool) (q : String)
    (cached : List CacheHit) (llm : Option LLMResult) (history : List Msg)
    (cache : List CacheEntry) : AskEffects :=
  match cacheEnabled with
  | false => askFull historyLength false q llm history cache
  | true =>
      match cached with
      | [] => askFull historyLength true q llm history cache
      | hit :: _ =>
          { queuePushes := [QItem.frag hit.response, QItem.stop]
            llmCalled := false
            notified := none
            history := Msg.mk hit.response "ai" (hit.metadata.getD [])
                :: Msg.mk q "human" [] :: history
            cache := rate_cache_item hit.id cache
            cacheStores := []
            warningLogged := false }

/-- A generic stored message used to populate concrete histories. -/
def wMsg : Msg := ⟨"m", "human", []⟩

/-- A concrete successful LLM outcome with no source documents. -/
def wRes0 : LLMResult := ⟨"q", "a", "g", [], ["a"]⟩

/-- A concrete cache hit. -/
def wHit : CacheHit := ⟨"c1", "resp", none⟩

/-- A concrete retrieved document. -/
def wDoc : Doc := ⟨"idx:doc1", "Title", "drama", "AU", "9", "7", "2020"⟩

/-- A concrete successful LLM outcome with one source document. -/
def wRes1 : LLMResult := ⟨"q", "a", "g", [wDoc], ["a"]⟩

/-- C4: on a cache hit (caching enabled, at least one hit) the streamed
output is the top hit's stored response verbatim followed by the sentinel
(so the consumer yields exactly the cached response), no LLM call is issued,
every cache entry with the hit's id has its popularity incremented by
exactly one (others untouched), no cache store is issued, and the turn
(original question, cached response, cached metadata) is appended to the
session history. -/
theorem ask_question_cache_hit (historyLength : Nat) (q : String)
    (hit : CacheHit) (rest : List CacheHit) (llm : Option LLMResult)
    (history : List Msg) (cache : List CacheEntry) :
    (ask_question historyLength true q (hit :: rest) llm history cache).queuePushes
        = [QItem.frag hit.response, QItem.stop]
    ∧ (ask_question historyLength true q (hit :: rest) llm history cache).llmCalled
        = false
    ∧ (ask_question historyLength true q (hit :: rest) llm history cache).history
        = Msg.mk hit.response "ai" (hit.metadata.getD [])
            :: Msg.mk q "human" [] :: history
    ∧ (ask_question historyLength true q (hit :: rest) llm history cache).cache
        = cache.map (fun e =>
            if e.id = hit.id then CacheEntry.mk e.id (e.popularity + 1) else e)
    ∧ (ask_question historyLength true q (hit :: rest) llm history cache).cacheStores
        = []
    ∧ streamer (((ask_question historyLength true q (hit :: rest) llm history cache).queuePushes).map
          PullEvent.item)
        = StreamResult.finished [hit.response] hit.response :=
  ⟨rfl, rfl, rfl, rfl, rfl, rfl⟩

/-- C5: on the full (cache-miss or caching-disabled) path with a successful
generation, a semantic-cache store is issued iff caching is enabled and at
least one document reference was collected; when it is, the stored entry
maps the generated standalone question (not the original user question) to
the generated answer, with the references as metadata. -/
theorem ask_question_cache_store_iff (historyLength : Nat)
    (cacheEnabled : Bool) (q : String) (cached : List CacheHit)
    (r : LLMResult) (history : List Msg) (cache : List CacheEntry)
    (hmiss : cacheEnabled = false ∨ cached = []) :
    (ask_question historyLength cacheEnabled q cached (some r) history cache).cacheStores
      = if cacheEnabled = true ∧ buildReferences r.source_documents ≠ [] then
          [(r.generated_question, r.answer, buildReferences r.source_documents)]
        else [] := by
  rcases hmiss with h | h
  · subst h
    by_cases hc : buildReferences r.source_documents = []
    · simp [ask_question, askFull, hc]
    · simp [ask_question, askFull, hc]
  · subst h
    cases cacheEnabled
    · by_cases hc : buildReferences r.source_documents = []
      · simp [ask_question, askFull, hc]
      · simp [ask_question, askFull, hc]
    · by_cases hc : buildReferences r.source_documents = []
      · simp [ask_question, askFull, hc, List.length_eq_zero]
      · simp [ask_question, askFull, hc, List.length_eq_zero]

/-- Witness for `ask_question_cache_store_iff` at a concrete input: caching
enabled, cache miss, one retrieved document. -/
theorem ask_question_cache_store_iff_witness :
    ((true : Bool) = false ∨ ([] : List CacheHit) = [])
    ∧ (ask_question 3 true "q" [] (some wRes1) [] []).cacheStores
      = if (true : Bool) = true ∧ buildReferences wRes1.source_documents ≠ [] then
          [(wRes1.generated_question, wRes1.answer,
            buildReferences wRes1.source_documents)]
        else [] :=
  ⟨Or.inr rfl,
    ask_question_cache_store_iff 3 true "q" [] wRes1 [] [] (Or.inr rfl)⟩

/-- C6: on the full path, when the LLM provider raises (`OpenAIError`), the
consumer is notified with the fixed "too long" message (pushed into the
channel followed by the sentinel), the session history is cleared to length
0, a warning is logged, and no history entry or cache store is persisted
(the cache state is untouched). -/
theorem ask_question_provider_error (historyLength : Nat)
    (cacheEnabled : Bool) (q : String) (cached : List CacheHit)
    (history : List Msg) (cache : List CacheEntry)
    (hmiss : cacheEnabled = false ∨ cached = []) :
    (ask_question historyLength cacheEnabled q cached none history cache).notified
        = some tooLongMessage
    ∧ (ask_question historyLength cacheEnabled q cached none history cache).history
        = []
    ∧ (ask_question historyLength cacheEnabled q cached none history cache).warningLogged
        = true
    ∧ (ask_question historyLength cacheEnabled q cached none history cache).cacheStores
        = []
    ∧ (ask_question historyLength cacheEnabled q cached none history cache).cache
        = cache
    ∧ (ask_question historyLength cacheEnabled q cached none history cache).queuePushes
        = [QItem.frag tooLongMessage, QItem.stop] := by
  rcases hmiss with h | h
  · subst h
    exact ⟨rfl, rfl, rfl, rfl, rfl, rfl⟩
  · subst h
    cases cacheEnabled
    · exact ⟨rfl, rfl, rfl, rfl, rfl, rfl⟩
    · exact ⟨rfl, rfl, rfl, rfl, rfl, rfl⟩

/-- Witness for `ask_question_provider_error` at a concrete input: caching
enabled, cache miss, provider error, two stored entries. -/
theorem ask_question_provider_error_witness :
    ((true : Bool) = false ∨ ([] : List CacheHit) = [])
    ∧ ((ask_question 3 true "q" [] none [wMsg, wMsg] [⟨"c", 0⟩]).notified
          = some tooLongMessage
      ∧ (ask_question 3 true "q" [] none [wMsg, wMsg] [⟨"c", 0⟩]).history = []
      ∧ (ask_question 3 true "q" [] none [wMsg, wMsg] [⟨"c", 0⟩]).warningLogged
          = true
      ∧ (ask_question 3 true "q" [] none [wMsg, wMsg] [⟨"c", 0⟩]).cacheStores
          = []
      ∧ (ask_question 3 true "q" [] none [wMsg, wMsg] [⟨"c", 0⟩]).cache
          = [⟨"c", 0⟩]
      ∧ (ask_question 3 true "q" [] none [wMsg, wMsg] [⟨"c", 0⟩]).queuePushes
          = [QItem.frag tooLongMessage, QItem.stop]) :=
  ⟨Or.inr rfl,
    ask_question_provider_error 3 true "q" [] [wMsg, wMsg] [⟨"c", 0⟩]
      (Or.inr rfl)⟩

/-- C3 counterexample: with `HISTORY_LENGTH = 4` and ten stored entries,
one more successful full-path turn leaves six entries in the store, not
four — the trim to `HISTORY_LENGTH` happens before the LLM call, and the
new turn's two messages are then added on top. -/
theorem ask_question_history_exceeds_history_length :
    (ask_question 4 false "q" [] (some wRes0)
        (List.replicate 10 wMsg) []).history.length = 6
    ∧ (ask_question 4 false "q" [] (some wRes0)
        (List.replicate 10 wMsg) []).history.length ≠ 4 := by
  constructor
  · rfl
  · decide

/-- C3 amended: given more than `HISTORY_LENGTH` stored entries, a
successful full-path turn first trims the store to exactly the
`HISTORY_LENGTH` most-recent entries (dropping the oldest excess from the
tail) and then appends the new turn's two messages, so the store ends with
exactly `HISTORY_LENGTH + 2` entries: the new turn plus the
`HISTORY_LENGTH` most-recent previous entries. -/
theorem ask_question_history_trim (historyLength : Nat)
    (cacheEnabled : Bool) (q : String) (cached : List CacheHit)
    (r : LLMResult) (history : List Msg) (cache : List CacheEntry)
    (hmiss : cacheEnabled = false ∨ cached = [])
    (hlen : historyLength < history.length) :
    (ask_question historyLength cacheEnabled q cached (some r) history cache).history
      = Msg.mk r.answer "ai" (buildReferences r.source_documents)
          :: Msg.mk r.question "human" [] :: history.take historyLength
    ∧ (ask_question historyLength cacheEnabled q cached (some r) history cache).history.length
      = historyLength + 2 := by
  have hfull : ∀ b : Bool,
      (askFull historyLength b q (some r) history cache).history
        = Msg.mk r.answer "ai" (buildReferences r.source_documents)
            :: Msg.mk r.question "human" [] :: history.take historyLength := by
    intro b
    simp [askFull, hlen]
  have htake : (history.take historyLength).length = historyLength := by
    rw [List.length_take]
    exact min_eq_left (le_of_lt hlen)
  rcases hmiss with h | h
  · subst h
    refine ⟨hfull false, ?_⟩
    rw [show (ask_question historyLength false q cached (some r) history cache)
          = askFull historyLength false q (some r) history cache from rfl,
      hfull false]
    simp [htake]
  · subst h
    cases cacheEnabled
    · refine ⟨hfull false, ?_⟩
      rw [show (ask_question historyLength false q [] (some r) history cache)
            = askFull historyLength false q (some r) history cache from rfl,
        hfull false]
      simp [htake]
    · refine ⟨hfull true, ?_⟩
      rw [show (ask_question historyLength true q [] (some r) history cache)
            = askFull historyLength true q (some r) history cache from rfl,
        hfull true]
      simp [htake]

/-- Witness for `ask_question_history_trim` at a concrete input:
`HISTORY_LENGTH = 1`, three stored entries, successful turn. -/
theorem ask_question_history_trim_witness :
    (((false : Bool) = false ∨ ([wHit] : List CacheHit) = [])
      ∧ 1 < ([wMsg, wMsg, wMsg] : List Msg).length)
    ∧ ((ask_question 1 false "q" [wHit] (some wRes0) [wMsg, wMsg, wMsg] []).history
        = Msg.mk wRes0.answer "ai" (buildReferences wRes0.source_documents)
            :: Msg.mk wRes0.question "human" []
            :: ([wMsg, wMsg, wMsg] : List Msg).take 1
      ∧ (ask_question 1 false "q" [wHit] (some wRes0) [wMsg, wMsg, wMsg] []).history.length
        = 1 + 2) :=
  ⟨⟨Or.inl rfl, by decide⟩,
    ask_question_history_trim 1 false "q" [wHit] wRes0 [wMsg, wMsg, wMsg] []
      (Or.inl rfl) (by decide)⟩

/-! ## Ingestion worker: `csv_loader_task` in `src/plugins/csv/worker.py`

The embedding client, the Redis connection and the text splitter are
external; the model takes as input whether `OpenAIEmbeddings(...)` raises,
whether the `minipilot_rag_alias` alias exists, and the chunk list the
splitter produces for each CSV row.  Python scoping matters here: when the
client constructor raises, the `except` clause only logs and falls through,
leaving `embedding_model` unbound, so the first `Redis.from_texts` call
(reached at the first row with a non-empty chunk list) raises an unhandled
`UnboundLocalError`. -/

/-- The observable behaviour of one `csv_loader_task` run. -/
structure WorkerEffects where
  /-- `logging.error` was called (embedding-client construction raised). -/
  errorLogged : Bool
  /-- `logging.warning` was called (no `minipilot_rag_alias` alias). -/
  aliasWarningLogged : Bool
  /-- Number of CSV rows iterated (read and split) before the run ended. -/
  rowsRead : Nat
  /-- Chunk lists actually written to the vector index, in row order. -/
  writes : List (List String)
  /-- The run ended with an unhandled `UnboundLocalError` at a write. -/
  unboundCrash : Bool
deriving DecidableEq, Repr

/-- The row loop of `csv_loader_task` (lines 62-90): for each row, if its
chunk list is non-empty the worker calls `Redis.from_texts`; evaluating the
`embedding=embedding_model` argument raises `UnboundLocalError` when the
client was never bound, ending the run.  Rows whose chunk list is empty are
skipped.  Returns (rows iterated, chunk lists written, crashed). -/
def workerRows (embedOk : Bool) :
    List (List String) → Nat × List (List String) × Bool
  | [] => (0, [], false)
  | splits :: rest =>
      if splits.length > 0 then
        if embedOk then
          let (n, ws, c) := workerRows embedOk rest
          (n + 1, splits :: ws, c)
        else (1, [], true)
      else
        let (n, ws, c) := workerRows embedOk rest
        (n + 1, ws, c)

/-- `csv_loader_task` (lines 14-90): logs an error iff the embedding client
constructor raised (line 37-40, without stopping), logs a warning iff the
alias does not exist (lines 43-46), then runs the row loop. -/
def csv_loader_task (embedOk : Bool) (aliasExists : Bool)
    (rowSplits : List (List String)) : WorkerEffects :=
  let (n, ws, c) := workerRows embedOk rowSplits
  { errorLogged := !embedOk
    aliasWarningLogged := !aliasExists
    rowsRead := n
    writes := ws
    unboundCrash := c }

/-- C7: when the embedding-client construction fails, the failure is logged
as an error — but the run proceeds past that point: with one non-empty row
the worker reads and splits the row and then dies with an unhandled
`UnboundLocalError` at the first write, and with rows that all split to
nothing it iterates the whole file and returns normally; in neither case
does it stop at initialization as the claim states.  (No chunks are ever
written to the index.) -/
theorem csv_loader_proceeds_after_embed_failure :
    csv_loader_task false true [["chunk"]]
      = { errorLogged := true
          aliasWarningLogged := false
          rowsRead := 1
          writes := []
          unboundCrash := true }
    ∧ csv_loader_task false true [[], []]
      = { errorLogged := true
          aliasWarningLogged := false
          rowsRead := 2
          writes := []
          unboundCrash := false } :=
  ⟨rfl, rfl⟩

/-! ### Index naming (`csv_loader_task`, lines 17-18) -/

/-- Modelled from the spec: `get_filename_without_extension` lives in
`src/common/utils.py`, which is not part of the given sources; per the spec
it yields the source-file name without its extension. -/
def get_filename_without_extension (filename : String) : String :=
  let parts := filename.splitOn "."
  if parts.length ≤ 1 then filename
  else String.intercalate "." parts.dropLast

/-- A wall-clock instant at second resolution, as observed by
`datetime.now()`. -/
structure Timestamp where
  year : Nat
  month : Nat
  day : Nat
  hour : Nat
  minute : Nat
  second : Nat
deriving DecidableEq, Repr

/-- The two zero-padded decimal digits of a field (valid calendar fields
are below 100, where this agrees with `strftime` zero padding). -/
def twoDigits (n : Nat) : List Char :=
  [Nat.digitChar (n / 10 % 10), Nat.digitChar (n % 10)]

/-- The four zero-padded decimal digits of the year (valid years are below
10000, where this agrees with `strftime` zero padding). -/
def fourDigits (n : Nat) : List Char :=
  [Nat.digitChar (n / 1000 % 10), Nat.digitChar (n / 100 % 10),
    Nat.digitChar (n / 10 % 10), Nat.digitChar (n % 10)]

/-- `datetime.now().strftime('%Y%m%d_%H%M%S')`: a fixed-width 15-character
rendering of the timestamp at second resolution. -/
def strftime_YmdHMS (t : Timestamp) : String :=
  String.mk (fourDigits t.year ++ twoDigits t.month ++ twoDigits t.day
    ++ ['_'] ++ twoDigits t.hour ++ twoDigits t.minute
    ++ twoDigits t.second)

/-- The index name built at line 18:
`f"minipilot_rag_{get_filename_without_extension(filename)}_{now:%Y%m%d_%H%M%S}_idx"`. -/
def index_name (filename : String) (t : Timestamp) : String :=
  "minipilot_rag_" ++ get_filename_without_extension filename ++ "_"
    ++ strftime_YmdHMS t ++ "_idx"

/-- One ingestion run: an identity, the source file, and the instant
`datetime.now()` returned for it. -/
structure IngestionRun where
  runId : Nat
  filename : String
  timestamp : Timestamp
deriving DecidableEq, Repr

/-- The vector-index name a run generates. -/
def runIndexName (r : IngestionRun) : String :=
  index_name r.filename r.timestamp

theorem strData_append (a b : String) :
    (a ++ b).data = a.data ++ b.data := by
  cases a; cases b; rfl

theorem strEq_of_data (a b : String) (h : a.data = b.data) : a = b := by
  cases a; cases b; exact congrArg String.mk h

theorem strftime_data_length (t : Timestamp) :
    (strftime_YmdHMS t).data.length = 15 := by
  simp [strftime_YmdHMS, fourDigits, twoDigits]

/-- Cancelling a shared prefix, a shared middle and a shared suffix in a
five-part concatenation, given that the fourth parts have equal length. -/
theorem append_mid_inj (p m e b1 b2 s1 s2 : List Char)
    (hs : s1.length = s2.length)
    (h : p ++ b1 ++ m ++ s1 ++ e = p ++ b2 ++ m ++ s2 ++ e) :
    b1 = b2 ∧ s1 = s2 := by
  simp only [List.append_assoc] at h
  have h1 := List.append_cancel_left h
  have hlen : (m ++ (s1 ++ e)).length = (m ++ (s2 ++ e)).length := by
    simp [hs]
  obtain ⟨hb, h2⟩ := List.append_inj' h1 hlen
  have h3 := List.append_cancel_left h2
  exact ⟨hb, List.append_cancel_right h3⟩

/-- C8 counterexample: two distinct ingestion runs over the same source
file whose `datetime.now()` readings fall in the same second generate the
same index name — the names do collide, and the second run extends the
first run's index instead of creating a new one. -/
theorem index_name_collision_on_same_second :
    (IngestionRun.mk 0 "movies.csv" ⟨2024, 5, 6, 7, 8, 9⟩)
      ≠ (IngestionRun.mk 1 "movies.csv" ⟨2024, 5, 6, 7, 8, 9⟩)
    ∧ runIndexName (IngestionRun.mk 0 "movies.csv" ⟨2024, 5, 6, 7, 8, 9⟩)
      = runIndexName (IngestionRun.mk 1 "movies.csv" ⟨2024, 5, 6, 7, 8, 9⟩) :=
  ⟨by decide, rfl⟩

/-- C8 amended: two runs' generated index names coincide exactly when their
source-file base names (extension stripped) and their second-resolution
formatted timestamps both coincide; in particular two runs whose
`datetime.now()` readings differ at second resolution, or whose base file
names differ, never collide. -/
theorem index_name_eq_iff (f1 f2 : String) (t1 t2 : Timestamp) :
    index_name f1 t1 = index_name f2 t2 ↔
      (get_filename_without_extension f1 = get_filename_without_extension f2
        ∧ strftime_YmdHMS t1 = strftime_YmdHMS t2) := by
  constructor
  · intro h
    have hd := congrArg String.data h
    simp only [index_name, strData_append] at hd
    have hs : (strftime_YmdHMS t1).data.length
        = (strftime_YmdHMS t2).data.length := by
      rw [strftime_data_length, strftime_data_length]
    obtain ⟨hb, hf⟩ := append_mid_inj _ _ _ _ _ _ _ hs hd
    exact ⟨strEq_of_data _ _ hb, strEq_of_data _ _ hf⟩
  · rintro ⟨h1, h2⟩
    simp [index_name, h1, h2]

end Minipilot
